import Mathlib

/-!
# Verification of the open-vm-tools request/reply transport and HGFS dispatch core

Shallow embedding of the code under scrutiny:

* `src/modules/freebsd/vmhgfs/vnopscommon.c` — the HGFS marshaling layer
  (`HgfsDoRead`, `HgfsDoWrite`, `HgfsReadInt`, `HgfsRenameInt`, `HgfsDelete`,
  `HgfsGetNextDirEntry`, `HgfsReaddirInt`);
* `src/libguestlib/vmGuestLib.c` — the guestlib protocol-version negotiation
  (`VMGuestLibUpdateInfo`, accessor dispatch `VMGUESTLIB_GETFN_BODY`);
* `bdoorChannel.c` (src/unnamed/part_005) — the backdoor RPC channel
  (`RpcInSend`, `RpcInStart`, `RpcInStopChannel`).

Collaborator functions that live outside this repository snapshot
(`HgfsKReq_*`, `HgfsSubmitRequest`, `HgfsGetStatus`, `HgfsNameToWireEncoding`,
`uiomove`, `RpcOut_send`, `RpcOut_start`, `RpcOut_stop`, `RpcOut_sendOne`,
`StrUtil_GetNextUintToken`) are modelled as environment parameters: their
observable result at each call site is a field of an environment record, and
the embedded functions replay the C control flow over those results.  Ghost
fields (`released`, `submitAttempted`, ...) record events (calls made by the
code) without influencing control flow.
-/

namespace VmTools

/-! ## Constants

FreeBSD errno values (the vnops code returns these; values are the standard
FreeBSD ones from errno.h, which is not part of this snapshot). -/

def EIO : Nat := 5
def ENOMEM : Nat := 12
def EACCES : Nat := 13
def EFAULT : Nat := 14
def EXDEV : Nat := 18
def EINVAL : Nat := 22
def EISDIR : Nat := 21
def ENAMETOOLONG : Nat := 63
def EOVERFLOW : Nat := 84
def EPROTO : Nat := 92

/-- Modelled from the spec: the fixed maximum I/O unit per READ/WRITE request
("no single request may request/send more than a fixed maximum I/O unit");
the defining header (hgfsProto.h) is not in this snapshot.  The concrete
value is irrelevant to the theorems; only `0 < HGFS_IO_MAX` is used. -/
def HGFS_IO_MAX : Nat := 4096

/-- Modelled from the spec: maximum wire packet size ("buffers sized to the
maximum wire packet"); the defining header is not in this snapshot. -/
def HGFS_PACKET_MAX : Nat := 6144

/-! ## The uio abstraction

A `struct uio` as seen by this code: `uio_resid` (bytes still wanted by the
caller) and the bytes delivered so far into the caller's buffer.  `uiomove`
of `n` bytes appends `n` bytes and decrements `resid` by `n`. -/

structure Uio where
  resid : Nat
  data : List Nat
  deriving Repr, DecidableEq

/-! ## HgfsDoRead (vnopscommon.c:1980-2082)

Environment: one READ round trip.  `submitErr` is the result of
`HgfsSubmitRequest` (0 = reply arrived; nonzero = error, in which case the
submit path itself destroyed the request).  `status` is the result of
`HgfsGetStatus` on the reply.  `actualSize`/`payload` are the reply fields,
`uioFail` the result of the `uiomove` copy-out. -/

structure ReadEnv where
  allocOk : Bool
  submitErr : Nat
  status : Nat
  actualSize : Nat
  payload : List Nat
  uioFail : Bool
  deriving Repr, DecidableEq

/-- Result of one embedded HGFS call.  `ret` is the C return value;
`released` counts calls to `HgfsKReq_ReleaseRequest`; `allocated` and
`submitAttempted`/`submitFailed` are ghost records of events. -/
structure CallResult where
  ret : Int
  uio : Uio
  allocated : Bool
  submitAttempted : Bool
  submitFailed : Bool
  released : Nat
  deriving Repr, DecidableEq

/-- `HgfsDoRead`: sends a single READ request; on success copies
`actualSize` bytes to the user and returns that count; returns the negative
of an errno on failure. -/
def HgfsDoRead (e : ReadEnv) (size : Nat) (uio : Uio) : CallResult :=
  if !e.allocOk then
    { ret := -(ENOMEM : Int), uio := uio, allocated := false,
      submitAttempted := false, submitFailed := false, released := 0 }
  else if e.submitErr ≠ 0 then
    -- HgfsSubmitRequest() destroys the request itself on failure.
    { ret := -(e.submitErr : Int), uio := uio, allocated := true,
      submitAttempted := true, submitFailed := true, released := 0 }
  else if e.status ≠ 0 then
    { ret := -(if e.status = EPROTO then (EPROTO : Int) else (EACCES : Int)),
      uio := uio, allocated := true, submitAttempted := true,
      submitFailed := false, released := 1 }
  else if e.actualSize ≤ size then
    if e.actualSize = 0 then
      { ret := 0, uio := uio, allocated := true, submitAttempted := true,
        submitFailed := false, released := 1 }
    else if e.uioFail then
      { ret := -( EIO : Int), uio := uio, allocated := true,
        submitAttempted := true, submitFailed := false, released := 1 }
    else
      { ret := (e.actualSize : Int),
        uio := { resid := uio.resid - e.actualSize,
                 data := uio.data ++ e.payload.take e.actualSize },
        allocated := true, submitAttempted := true, submitFailed := false,
        released := 1 }
  else
    -- "We got too much data: server error."
    { ret := -(EPROTO : Int), uio := uio, allocated := true,
      submitAttempted := true, submitFailed := false, released := 1 }

/-! ## HgfsDoWrite (vnopscommon.c:2111-2211)

Environment: one WRITE round trip.  `uioCopyFail` is the `uiomove` that
copies the user's data into the request payload before submit;
`repSizeOk` is the check `HgfsKReq_GetPayloadSize(req) == repSize` on the
successful reply; `actualSize` is the server-declared written count. -/

structure WriteEnv where
  allocOk : Bool
  uioCopyFail : Bool
  submitErr : Nat
  status : Nat
  repSizeOk : Bool
  actualSize : Nat
  deriving Repr, DecidableEq

/-- `HgfsDoWrite`: sends a single WRITE request carrying `size` bytes taken
from the user buffer; returns the server-declared `actualSize` on success
and the negative of an errno on failure.  The `uio` given to it has already
had `size` bytes consumed by the copy-in `uiomove` (when that succeeds). -/
def HgfsDoWrite (e : WriteEnv) (size : Nat) (uio : Uio) : CallResult :=
  if !e.allocOk then
    { ret := -(ENOMEM : Int), uio := uio, allocated := false,
      submitAttempted := false, submitFailed := false, released := 0 }
  else if e.uioCopyFail then
    { ret := -( EIO : Int), uio := uio, allocated := true,
      submitAttempted := false, submitFailed := false, released := 1 }
  else
    -- copy-in succeeded: resid drops by the requested size before submit
    let uio' : Uio := { resid := uio.resid - size, data := uio.data }
    if e.submitErr ≠ 0 then
      { ret := -(e.submitErr : Int), uio := uio', allocated := true,
        submitAttempted := true, submitFailed := true, released := 0 }
    else if e.status ≠ 0 then
      { ret := -(if e.status = EPROTO then (EPROTO : Int) else (EACCES : Int)),
        uio := uio', allocated := true, submitAttempted := true,
        submitFailed := false, released := 1 }
    else if !e.repSizeOk then
      { ret := -(EPROTO : Int), uio := uio', allocated := true,
        submitAttempted := true, submitFailed := false, released := 1 }
    else
      -- no check of actualSize against the requested size here
      { ret := (e.actualSize : Int), uio := uio', allocated := true,
        submitAttempted := true, submitFailed := false, released := 1 }

/-! ## HgfsReadInt (vnopscommon.c:1034-1118)

The chunked read loop.  The server's behavior across calls is a function
`srv : offset → size → ReadEnv`.  The loop body requests
`min(resid, HGFS_IO_MAX)` bytes, and:
* `HgfsDoRead` result 0 (end of file) → return success;
* negative → return the flipped errno;
* positive → advance `offset` by the count and loop while `resid ≠ 0`.

The C loop has no iteration bound of its own (it terminates because `resid`
strictly decreases); the embedding uses explicit fuel, and the theorems show
`resid + 1` fuel suffices.  The result also records the list of per-request
sizes issued, newest first consed onto older. -/

structure ReadLoopResult where
  ret : Nat
  uio : Uio
  reqSizes : List Nat
  deriving Repr, DecidableEq

def HgfsReadIntLoop (srv : Nat → Nat → ReadEnv) :
    Nat → Nat → Uio → Option ReadLoopResult
  | 0, _, _ => none
  | fuel + 1, offset, uio =>
    let size := min uio.resid HGFS_IO_MAX
    let dr := HgfsDoRead (srv offset size) size uio
    if dr.ret = 0 then
      some { ret := 0, uio := dr.uio, reqSizes := [size] }
    else if dr.ret < 0 then
      some { ret := (-dr.ret).toNat, uio := dr.uio, reqSizes := [size] }
    else if dr.uio.resid = 0 then
      some { ret := 0, uio := dr.uio, reqSizes := [size] }
    else
      (HgfsReadIntLoop srv fuel (offset + dr.ret.toNat) dr.uio).map
        (fun r => { r with reqSizes := size :: r.reqSizes })

/-- `HgfsReadInt` proper: rejects directories and negative offsets, then
runs the chunk loop from the uio's offset.  `isDir` models
`HGFS_VP_TO_VTYPE(vp) == VDIR`; the offset is a `Nat` because the code has
already rejected negative offsets.  `handleOk` models
`HgfsGetOpenFileHandle` succeeding. -/
def HgfsReadInt (isDir : Bool) (handleOk : Bool) (srv : Nat → Nat → ReadEnv)
    (offset : Nat) (uio : Uio) : Option ReadLoopResult :=
  if isDir then some { ret := EISDIR, uio := uio, reqSizes := [] }
  else if !handleOk then some { ret := EINVAL, uio := uio, reqSizes := [] }
  else HgfsReadIntLoop srv (uio.resid + 1) offset uio

/-! ## HgfsRenameInt (vnopscommon.c:90-232)

Environment for one rename.  `dstMallocOk` is the `os_malloc` of the
destination path buffer; `makeFullRes` the result of `HgfsMakeFullName`
(negative = failure, otherwise the built length); `encodeOldRes` and
`encodeNewRes` the two `HgfsNameToWireEncoding` results (negative =
`-errno`, otherwise the encoded length); `reqSize` the fixed V3 payload
size; `srcLen` the source path length. -/

structure RenameEnv where
  sameMount : Bool
  allocOk : Bool
  dstMallocOk : Bool
  makeFullRes : Int
  reqSize : Nat
  srcLen : Nat
  encodeOldRes : Int
  encodeNewRes : Int
  submitErr : Nat
  status : Nat
  deriving Repr, DecidableEq

/-- Result of a call that only reports an errno (no uio). -/
structure OpResult where
  ret : Nat
  allocated : Bool
  submitAttempted : Bool
  submitFailed : Bool
  released : Nat
  deriving Repr, DecidableEq

def HgfsRenameInt (e : RenameEnv) : OpResult :=
  if !e.sameMount then
    { ret := EXDEV, allocated := false, submitAttempted := false,
      submitFailed := false, released := 0 }
  else if !e.allocOk then
    { ret := ENOMEM, allocated := false, submitAttempted := false,
      submitFailed := false, released := 0 }
  else if !e.dstMallocOk then
    -- ret = ENOMEM; goto destroyOut  (releases the request)
    { ret := ENOMEM, allocated := true, submitAttempted := false,
      submitFailed := false, released := 1 }
  else if e.makeFullRes < 0 then
    { ret := ENAMETOOLONG, allocated := true, submitAttempted := false,
      submitFailed := false, released := 1 }
  else if e.reqSize + e.srcLen + e.makeFullRes.toNat > HGFS_PACKET_MAX then
    { ret := EPROTO, allocated := true, submitAttempted := false,
      submitFailed := false, released := 1 }
  else if e.encodeOldRes < 0 then
    { ret := (-e.encodeOldRes).toNat, allocated := true,
      submitAttempted := false, submitFailed := false, released := 1 }
  else if e.encodeNewRes < 0 then
    { ret := (-e.encodeNewRes).toNat, allocated := true,
      submitAttempted := false, submitFailed := false, released := 1 }
  else if e.submitErr ≠ 0 then
    -- HgfsSubmitRequest() destroys the request if necessary; goto out
    { ret := e.submitErr, allocated := true, submitAttempted := true,
      submitFailed := true, released := 0 }
  else if e.status ≠ 0 then
    { ret := e.status, allocated := true, submitAttempted := true,
      submitFailed := false, released := 1 }
  else
    { ret := 0, allocated := true, submitAttempted := true,
      submitFailed := false, released := 1 }

/-! ## HgfsDelete (vnopscommon.c:2230-2316) -/

structure DeleteEnv where
  allocOk : Bool
  encodeRes : Int
  submitErr : Nat
  status : Nat
  deriving Repr, DecidableEq

def HgfsDelete (e : DeleteEnv) : OpResult :=
  if !e.allocOk then
    { ret := ENOMEM, allocated := false, submitAttempted := false,
      submitFailed := false, released := 0 }
  else if e.encodeRes < 0 then
    { ret := (-e.encodeRes).toNat, allocated := true,
      submitAttempted := false, submitFailed := false, released := 1 }
  else if e.submitErr ≠ 0 then
    { ret := e.submitErr, allocated := true, submitAttempted := true,
      submitFailed := true, released := 0 }
  else if e.status ≠ 0 then
    { ret := e.status, allocated := true, submitAttempted := true,
      submitFailed := false, released := 1 }
  else
    { ret := 0, allocated := true, submitAttempted := true,
      submitFailed := false, released := 1 }

/-! ## HgfsGetNextDirEntry (vnopscommon.c:2338-2453)

One SEARCH_READ round trip at a given directory offset.  The reply carries
a payload size (checked against the minimal reply size), a file-name length
and bytes, and the entry's type. -/

/-- Modelled from the spec: fixed part of a SEARCH_READ V3 reply
(`HGFS_REP_PAYLOAD_SIZE_V3(reply) + sizeof *dirent`); the defining header is
not in this snapshot, so the size is a fixed positive constant. -/
def searchReadRepSize : Nat := 128

/-- `sizeof dirp->d_name` in the FreeBSD `struct dirent` (255 + 1); the
size of the caller's on-stack `nameBuf` in `HgfsReaddirInt`. -/
def direntNameSize : Nat := 256

/-- `sizeof (struct dirent)`: the fixed record length `d_reclen` the loop
charges against the caller's buffer for every returned entry. -/
def direntRecLen : Nat := 280

/-- `HGFS_PAYLOAD_MAX(repSize)`: bytes of a max-size packet left after the
fixed reply part. -/
def HGFS_PAYLOAD_MAX (repSize : Nat) : Nat := HGFS_PACKET_MAX - repSize

structure SearchReadReply where
  submitErr : Nat
  status : Nat
  payloadSize : Nat
  nameLen : Nat
  name : List Nat
  ftype : Nat
  deriving Repr, DecidableEq

/-- Result of `HgfsGetNextDirEntry`: errno, the done flag, and the entry
name/type written to the caller's buffers on success. -/
structure DirEntryResult where
  ret : Nat
  done : Bool
  nameOut : Option (List Nat × Nat)
  released : Nat
  deriving Repr, DecidableEq

def HgfsGetNextDirEntry (e : SearchReadReply) (nameSize : Nat) : DirEntryResult :=
  if e.submitErr ≠ 0 then
    { ret := e.submitErr, done := false, nameOut := none, released := 0 }
  else if e.status ≠ 0 then
    { ret := if e.status = EPROTO then EPROTO else EINVAL, done := false,
      nameOut := none, released := 1 }
  else if e.payloadSize < searchReadRepSize then
    -- "server didn't provide entire reply"
    { ret := EFAULT, done := false, nameOut := none, released := 1 }
  else if e.nameLen = 0 then
    -- "no more directory entries": done, success
    { ret := 0, done := true, nameOut := none, released := 1 }
  else if e.nameLen ≥ nameSize ∨ e.nameLen > HGFS_PAYLOAD_MAX searchReadRepSize then
    { ret := EOVERFLOW, done := false, nameOut := none, released := 1 }
  else
    { ret := 0, done := false, nameOut := some (e.name.take e.nameLen, e.ftype),
      released := 1 }

/-! ## HgfsReaddirInt (vnopscommon.c:260-431)

The readdir loop.  Collaborator outcomes per entry:
* `oracle offset` — the SEARCH_READ reply for that directory offset;
* `decode name` — `HgfsNameFromWireEncoding` on the returned wire name
  (`none` = negative return: name did not fit or bad utf8 → skip entry);
* `makeFull name` — `HgfsMakeFullName` for the inode hash (`false` =
  negative return → skip entry);
* `uioFail offset` — the `uiomove` copying the dirent out.

The loop runs `offset++` forever until an exit condition, so the embedding
is fueled.  `issued` records the offsets for which a SEARCH_READ request
was issued. -/

structure ReaddirEnv where
  oracle : Nat → SearchReadReply
  decode : List Nat → Option (List Nat)
  makeFull : List Nat → Bool
  uioFail : Nat → Bool

structure ReaddirState where
  resid : Nat
  entries : List (List Nat × Nat)
  issued : List Nat
  deriving Repr, DecidableEq

structure ReaddirResult where
  ret : Nat
  eof : Bool
  finalState : ReaddirState
  deriving Repr, DecidableEq

def HgfsReaddirLoop (env : ReaddirEnv) :
    Nat → Nat → ReaddirState → Option ReaddirResult
  | 0, _, _ => none
  | fuel + 1, offset, st =>
    let r := HgfsGetNextDirEntry (env.oracle offset) direntNameSize
    let st' := { st with issued := st.issued ++ [offset] }
    if r.ret = EOVERFLOW then
      -- "If the filename was too long, we skip to the next entry"
      HgfsReaddirLoop env fuel (offset + 1) st'
    else if r.ret ≠ 0 then
      some { ret := r.ret, eof := false, finalState := st' }
    else if r.done then
      -- end of directory: set *eofp and stop
      some { ret := 0, eof := true, finalState := st' }
    else
      match r.nameOut with
      | none => some { ret := 0, eof := true, finalState := st' } -- unreachable
      | some (wireName, ftype) =>
        match env.decode wireName with
        | none =>
          -- HgfsNameFromWireEncoding failed: skip to the next entry
          HgfsReaddirLoop env fuel (offset + 1) st'
        | some dname =>
          if direntRecLen > st'.resid then
            -- "ran out of room in the buffer": stop with success, no eof
            some { ret := 0, eof := false, finalState := st' }
          else if !env.makeFull dname then
            -- full path too long: skip this entry
            HgfsReaddirLoop env fuel (offset + 1) st'
          else if env.uioFail offset then
            some { ret := EFAULT, eof := false, finalState := st' }
          else
            HgfsReaddirLoop env fuel (offset + 1)
              { resid := st'.resid - direntRecLen,
                entries := st'.entries ++ [(dname, ftype)],
                issued := st'.issued }

/-! ## VMGuestLibUpdateInfo (vmGuestLib.c:346-569)

The protocol-version negotiation loop, and the post-loop decode that stores
the negotiated version and session id in the handle. -/

inductive VMGuestLibError where
  | success
  | notRunningInVM
  | notEnabled
  | notAvailable
  | noInfo
  | memory
  | bufferTooSmall
  | invalidHandle
  | invalidArg
  | other
  | unsupportedVersion
  deriving Repr, DecidableEq

/-- Modelled from the spec: the client's highest supported protocol version
(the V3 self-describing encoding is the highest layout the spec defines);
`VMGUESTLIB_DATA_VERSION` is defined in vmGuestLibInt.h, which is not in
this snapshot. -/
def VMGUESTLIB_DATA_VERSION : Nat := 3

/-- `sizeof(VMGuestLibDataV2)`: wire size of a V2 reply.  The struct lives
in a header outside this snapshot; the theorems depend only on
`4 ≤ sizeofV2Data`. -/
def sizeofV2Data : Nat := 628

/-- `sizeof(VMGuestLibDataV3)`: minimal wire size of a V3 reply (header
plus data-size field); defined in a header outside this snapshot. -/
def sizeofV3Data : Nat := 16

/-- One host reply to the `VMGUESTLIB_BACKDOOR_COMMAND_STRING <version>`
RPC.  `ok`: `RpcOut_sendOne` returned TRUE, with the reply's header
`version`/`sessionId` fields and total reply length.  `fail`: FALSE, with
`unknownCmd` = the reply text compares equal to "Unknown command", and
`fallback` = the result of `StrUtil_GetNextUintToken` parsing a
":"-delimited version out of the reply text. -/
inductive HostReply where
  | ok (version sessionId len : Nat)
  | fail (unknownCmd : Bool) (fallback : Option Nat)
  deriving Repr, DecidableEq

/-- The mutable state the loop reads and writes: the requested version
(local `hostVersion`) and the handle's stored session id. -/
structure NegState where
  hostVersion : Nat
  sessionId : Nat
  deriving Repr, DecidableEq

inductive NegStep where
  | done (ret : VMGuestLibError) (accepted : Option HostReply) (st : NegState)
  | again (st : NegState)
  deriving Repr, DecidableEq

/-- One iteration of the `do { ... } while` body. -/
def negotiateStep (st : NegState) (r : HostReply) : NegStep :=
  match r with
  | .ok _ rsid _ =>
    if st.sessionId ≠ 0 ∧ st.sessionId ≠ rsid then
      -- "Renegotiate protocol if sessionId changed."
      .again { hostVersion := VMGUESTLIB_DATA_VERSION, sessionId := 0 }
    else
      .done .success (some r) st
  | .fail unknownCmd fallback =>
    if st.hostVersion = 2 ∨ unknownCmd then
      .done .unsupportedVersion none st
    else if st.hostVersion = 3 then
      -- v2 host does not send its highest version: just drop to 2
      .again { hostVersion := 2, sessionId := 0 }
    else
      match fallback with
      | none => .done .other none st
      | some v => .again { hostVersion := v, sessionId := st.sessionId }

/-- The negotiation loop: replies are consumed from the stream `host`, one
per iteration; `i` is the iteration index.  `none` = fuel exhausted (the C
loop would still be running). -/
def negotiateLoop (host : Nat → HostReply) :
    Nat → Nat → NegState → Option (VMGuestLibError × Option HostReply × NegState)
  | 0, _, _ => none
  | fuel + 1, i, st =>
    match negotiateStep st (host i) with
    | .done ret accepted st' => some (ret, accepted, st')
    | .again st' => negotiateLoop host fuel (i + 1) st'

/-- The guestlib handle fields this code touches. -/
structure GuestLibHandle where
  version : Nat
  sessionId : Nat
  deriving Repr, DecidableEq

/-- Outcome of `VMGuestLibUpdateInfo`: the returned error and the handle
state after the call. -/
structure UpdateOutcome where
  ret : VMGuestLibError
  handle : GuestLibHandle
  deriving Repr, DecidableEq

/-- Collaborator outcomes for the V3 post-loop XDR decode (vmGuestLib.c:
477-558): whether the stat-count decode and the per-stat unmarshaling
succeed.  (Irrelevant to the V2 path.) -/
structure XdrEnv where
  countOk : Bool
  statsOk : Bool
  deriving Repr, DecidableEq

/-- `VMGuestLibUpdateInfo`: run the negotiation loop from the handle's
stored version (0 → start at `VMGUESTLIB_DATA_VERSION`), then decode the
accepted reply per the final negotiated version, storing the reply's
version and session id in the handle.  `none` = the C loop did not
terminate within `fuel` iterations. -/
def VMGuestLibUpdateInfo (fuel : Nat) (host : Nat → HostReply) (xdr : XdrEnv)
    (h : GuestLibHandle) : Option UpdateOutcome :=
  let hv0 := if h.version = 0 then VMGUESTLIB_DATA_VERSION else h.version
  match negotiateLoop host fuel 0 { hostVersion := hv0, sessionId := h.sessionId } with
  | none => none
  | some (ret, accepted, st) =>
    if ret ≠ .success then
      some { ret := ret, handle := { h with sessionId := st.sessionId } }
    else
      match accepted with
      | none => some { ret := .other, handle := h } -- unreachable: success carries a reply
      | some (.fail _ _) => some { ret := .other, handle := h } -- unreachable
      | some (.ok rver rsid rlen) =>
        -- "Sanity check the results."
        if rlen < 4 then
          some { ret := .other, handle := { h with sessionId := st.sessionId } }
        else if st.hostVersion = 2 then
          if rver ≠ st.hostVersion then
            some { ret := .other, handle := { h with sessionId := st.sessionId } }
          else if rlen ≠ sizeofV2Data then
            some { ret := .other, handle := { h with sessionId := st.sessionId } }
          else
            some { ret := .success, handle := { version := rver, sessionId := rsid } }
        else if st.hostVersion = 3 then
          if rver ≠ st.hostVersion then
            some { ret := .other, handle := { h with sessionId := st.sessionId } }
          else if rlen < sizeofV3Data then
            some { ret := .other, handle := { h with sessionId := st.sessionId } }
          else if !xdr.countOk then
            -- xdr count decode failed: ret (still success) returned as is
            some { ret := .success, handle := { version := rver, sessionId := rsid } }
          else if !xdr.statsOk then
            -- unmarshal error: invalidate the session id
            some { ret := .success, handle := { version := rver, sessionId := 0 } }
          else
            some { ret := .success, handle := { version := rver, sessionId := rsid } }
        else
          -- "Host should never reply with a higher version protocol"
          some { ret := .other, handle := { h with sessionId := st.sessionId } }

/-! ## Accessor dispatch (`VMGUESTLIB_GETFN_BODY`, vmGuestLib.c:113-126)

Which wire layout a statistic accessor decodes with, as a function of the
handle: `VMGuestLibCheckArgs` first (NULL checks elided — the embedding has
a handle by construction; session id 0 → `noInfo`), then dispatch on the
stored version: 2 → the `VMGuestLibDataV2` fixed struct, 3 → the V3
statistics array. -/

inductive GetPath where
  | checkFail (e : VMGuestLibError)
  | v2Layout
  | v3Layout
  | noPath
  deriving Repr, DecidableEq

def VMGUESTLIB_GETFN_BODY (h : GuestLibHandle) : GetPath :=
  if h.sessionId = 0 then .checkFail .noInfo
  else if h.version = 2 then .v2Layout
  else if h.version = 3 then .v3Layout
  else .noPath

/-! ## Backdoor RPC channel (bdoorChannel.c)

The `BackdoorChannel` started/stopped flags, plus the actual RpcIn/RpcOut
library state (whether each underlying channel is running), so that the
flag bookkeeping can be checked against what the libraries were told. -/

structure BackdoorChannel where
  inStarted : Bool
  outStarted : Bool
  inRunning : Bool
  outRunning : Bool
  deriving Repr, DecidableEq

/-- Collaborator outcomes for one `RpcInStart`: whether `RpcIn_start` and
`RpcOut_start` succeed. -/
structure StartEnv where
  inStartOk : Bool
  outStartOk : Bool
  deriving Repr, DecidableEq

/-- `RpcInStart` (bdoorChannel.c:97-117).  The C asserts both flags are
clear on entry.  After any attempt both flags are set TRUE unconditionally;
on partial failure (`RpcOut_start` fails) the just-started RpcIn loop is
stopped again.  Returns (TRUE on success, new state). -/
def RpcInStart (e : StartEnv) (c : BackdoorChannel) : Bool × BackdoorChannel :=
  let ret := e.inStartOk
  let c' :=
    if ret then
      if e.outStartOk then
        { c with inRunning := true, outRunning := true }
      else
        -- RpcOut_start failed: RpcIn_stop(bdoor->in)
        { c with inRunning := false, outRunning := false }
    else
      c
  (ret && e.outStartOk,
   { c' with inStarted := true, outStarted := true })

/-- `RpcInStopChannel` (bdoorChannel.c:54-86) with `destroy = FALSE` (the
`RpcInStop` entry point): stop each direction that its flag says is
started, then clear both flags.  Safe to call more than once. -/
def RpcInStopChannel (c : BackdoorChannel) : BackdoorChannel :=
  let c1 :=
    if c.outStarted then { c with outRunning := false } else c
  let c2 :=
    if c1.inStarted then { c1 with inRunning := false } else c1
  { c2 with inStarted := false, outStarted := false }

/-! ## RpcInSend (bdoorChannel.c:165-236)

A reply is a byte string (`List Char` here, since the desync signature is
a text prefix match).  `RpcOut_send` outcomes for the first and (possible)
second attempt, and the `RpcOut_start` outcome for the restart, are
environment fields; the data sent is whatever the caller passed, and the
embedding records each send attempt's payload so "identical data resent"
is checkable. -/

structure SendAttempt where
  ok : Bool
  reply : Option (List Char)
  deriving Repr, DecidableEq

structure SendEnv where
  first : SendAttempt
  restartOk : Bool
  second : SendAttempt
  deriving Repr, DecidableEq

/-- The reply-text signature guarding the retry (bdoorChannel.c:204-205):
`!ret && reply != NULL && replyLen > sizeof "RpcOut: " &&
g_str_has_prefix(reply, "RpcOut: ")`.  `sizeof "RpcOut: "` counts the NUL,
so the length bound is `> 9`. -/
def isDesyncReply (reply : Option (List Char)) : Bool :=
  match reply with
  | none => false
  | some s =>
    decide (s.length > ("RpcOut: ".length + 1)) &&
      (("RpcOut: ".toList).isPrefixOf s)

/-- What one `RpcInSend` call did: its return value, the reply handed to
the caller, the payloads passed to `RpcOut_send` (in order), how many times
`RpcOut_stop` and `RpcOut_start` were called on the out channel, and the
resulting channel state. -/
structure SendOutcome where
  ret : Bool
  result : Option (List Char)
  sendsIssued : List (List Char)
  stopCalls : Nat
  restartCalls : Nat
  channel : BackdoorChannel
  deriving Repr, DecidableEq

def RpcInSend (e : SendEnv) (c : BackdoorChannel) (data : List Char) :
    SendOutcome :=
  if !c.outStarted then
    { ret := false, result := none, sendsIssued := [], stopCalls := 0,
      restartCalls := 0, channel := c }
  else
    let r1 := e.first
    if !r1.ok && isDesyncReply r1.reply then
      if e.restartOk then
        let r2 := e.second
        { ret := r2.ok, result := r2.reply, sendsIssued := [data, data],
          stopCalls := 1, restartCalls := 1,
          channel := { c with outRunning := true } }
      else
        -- "Couldn't restart RpcOut channel"
        { ret := false, result := r1.reply, sendsIssued := [data],
          stopCalls := 1, restartCalls := 1,
          channel := { c with outRunning := false, outStarted := false } }
    else
      { ret := r1.ok, result := r1.reply, sendsIssued := [data],
        stopCalls := 0, restartCalls := 0, channel := c }

/-! ## Theorems -/

/-- C1 counterexample: the WRITE path has no oversize check.  With a
successful reply declaring `actualSize = 6` for a 5-byte chunk,
`HgfsDoWrite` returns the server's count (6) instead of aborting with
`-EPROTO`. -/
theorem HgfsDoWrite_accepts_oversize_actualSize :
    (HgfsDoWrite
        { allocOk := true, uioCopyFail := false, submitErr := 0, status := 0,
          repSizeOk := true, actualSize := 6 }
        5 { resid := 5, data := [] }).ret = 6 ∧
    (HgfsDoWrite
        { allocOk := true, uioCopyFail := false, submitErr := 0, status := 0,
          repSizeOk := true, actualSize := 6 }
        5 { resid := 5, data := [] }).ret ≠ -(EPROTO : Int) ∧
    6 > 5 := by
  decide

/-- C1 (amended to the READ path): for every READ chunk, if the server's
reply declares `actualSize` greater than the requested chunk size,
`HgfsDoRead` returns `-EPROTO` and copies nothing into the destination
buffer (the uio is unchanged). -/
theorem HgfsDoRead_oversize_aborts_EPROTO (e : ReadEnv) (size : Nat) (uio : Uio)
    (hAlloc : e.allocOk = true) (hSub : e.submitErr = 0) (hSt : e.status = 0)
    (hOver : size < e.actualSize) :
    (HgfsDoRead e size uio).ret = -(EPROTO : Int) ∧
    (HgfsDoRead e size uio).uio = uio := by
  simp [HgfsDoRead, hAlloc, hSub, hSt, Nat.not_le.mpr hOver]

/-- Witness for the amended C1 theorem at a concrete oversize reply. -/
theorem HgfsDoRead_oversize_aborts_EPROTO_witness :
    (HgfsDoRead
        { allocOk := true, submitErr := 0, status := 0, actualSize := 6,
          payload := [1, 2, 3, 4, 5, 6], uioFail := false }
        5 { resid := 5, data := [] }).ret = -(EPROTO : Int) ∧
    (HgfsDoRead
        { allocOk := true, submitErr := 0, status := 0, actualSize := 6,
          payload := [1, 2, 3, 4, 5, 6], uioFail := false }
        5 { resid := 5, data := [] }).uio = { resid := 5, data := [] } :=
  HgfsDoRead_oversize_aborts_EPROTO
    { allocOk := true, submitErr := 0, status := 0, actualSize := 6,
      payload := [1, 2, 3, 4, 5, 6], uioFail := false }
    5 { resid := 5, data := [] } rfl rfl rfl (by decide)

set_option maxHeartbeats 2000000 in
/-- C4: for rename, delete and read, a request obtained from a successful
`HgfsKReq_AllocateRequest` is released exactly once on every exit path —
once via `HgfsKReq_ReleaseRequest` unless `HgfsSubmitRequest` returned
failure (in which case the submit path disposed of it and the caller
releases nothing); when allocation failed nothing is released. -/
theorem Hgfs_release_exactly_once (re : RenameEnv) (de : DeleteEnv)
    (rde : ReadEnv) (size : Nat) (uio : Uio) :
    ((HgfsRenameInt re).released =
      if (HgfsRenameInt re).allocated && !(HgfsRenameInt re).submitFailed
      then 1 else 0) ∧
    ((HgfsDelete de).released =
      if (HgfsDelete de).allocated && !(HgfsDelete de).submitFailed
      then 1 else 0) ∧
    ((HgfsDoRead rde size uio).released =
      if (HgfsDoRead rde size uio).allocated &&
          !(HgfsDoRead rde size uio).submitFailed
      then 1 else 0) := by
  refine ⟨?_, ?_, ?_⟩
  · unfold HgfsRenameInt
    split
    · rfl
    · split
      · rfl
      · split
        · rfl
        · split
          · rfl
          · split
            · rfl
            · split
              · rfl
              · split
                · rfl
                · split
                  · rfl
                  · split
                    · rfl
                    · rfl
  · unfold HgfsDelete
    split
    · rfl
    · split
      · rfl
      · split
        · rfl
        · split
          · rfl
          · rfl
  · unfold HgfsDoRead
    split
    · rfl
    · split
      · rfl
      · split
        · rfl
        · split
          · split
            · rfl
            · split
              · rfl
              · rfl
          · rfl

/-- C6: during an update, a successful host reply whose session id differs
from the nonzero session id stored in the handle is not accepted: the
stored session id is reset to 0 and negotiation restarts from the client's
highest supported version. -/
theorem negotiateStep_session_mismatch_renegotiates (st : NegState)
    (v rsid rlen : Nat) (h0 : st.sessionId ≠ 0) (hne : st.sessionId ≠ rsid) :
    negotiateStep st (.ok v rsid rlen) =
      .again { hostVersion := VMGUESTLIB_DATA_VERSION, sessionId := 0 } := by
  simp [negotiateStep, h0, hne]

/-- Witness for the C6 theorem: stored session 5, reply session 9. -/
theorem negotiateStep_session_mismatch_witness :
    negotiateStep { hostVersion := 3, sessionId := 5 } (.ok 3 9 16) =
      .again { hostVersion := VMGUESTLIB_DATA_VERSION, sessionId := 0 } :=
  negotiateStep_session_mismatch_renegotiates
    { hostVersion := 3, sessionId := 5 } 3 9 16 (by decide) (by decide)

/-- C9: starting from a fully stopped channel, any start attempt — whatever
the outcomes of `RpcIn_start` and `RpcOut_start`, including the partial
failure where the inbound loop starts but the outbound channel does not —
leaves a state from which one stop clears both direction flags and both
underlying channels, and a second stop is a no-op. -/
theorem RpcIn_start_stop_wellformed (e : StartEnv) (c : BackdoorChannel)
    (hIn : c.inStarted = false) (hOut : c.outStarted = false) :
    (RpcInStopChannel (RpcInStart e c).2).inStarted = false ∧
    (RpcInStopChannel (RpcInStart e c).2).outStarted = false ∧
    (RpcInStopChannel (RpcInStart e c).2).inRunning = false ∧
    (RpcInStopChannel (RpcInStart e c).2).outRunning = false ∧
    RpcInStopChannel (RpcInStopChannel (RpcInStart e c).2) =
      RpcInStopChannel (RpcInStart e c).2 := by
  unfold RpcInStart RpcInStopChannel
  rcases e with ⟨inOk, outOk⟩
  cases inOk <;> cases outOk <;> simp

/-- Witness for the C9 theorem: the partial-failure start (inbound starts,
outbound fails) on a freshly constructed channel. -/
theorem RpcIn_start_stop_wellformed_witness :
    (RpcInStopChannel (RpcInStart { inStartOk := true, outStartOk := false }
        { inStarted := false, outStarted := false,
          inRunning := false, outRunning := false }).2).inStarted = false ∧
    (RpcInStopChannel (RpcInStart { inStartOk := true, outStartOk := false }
        { inStarted := false, outStarted := false,
          inRunning := false, outRunning := false }).2).outStarted = false ∧
    (RpcInStopChannel (RpcInStart { inStartOk := true, outStartOk := false }
        { inStarted := false, outStarted := false,
          inRunning := false, outRunning := false }).2).inRunning = false ∧
    (RpcInStopChannel (RpcInStart { inStartOk := true, outStartOk := false }
        { inStarted := false, outStarted := false,
          inRunning := false, outRunning := false }).2).outRunning = false ∧
    RpcInStopChannel (RpcInStopChannel
        (RpcInStart { inStartOk := true, outStartOk := false }
          { inStarted := false, outStarted := false,
            inRunning := false, outRunning := false }).2) =
      RpcInStopChannel (RpcInStart { inStartOk := true, outStartOk := false }
        { inStarted := false, outStarted := false,
          inRunning := false, outRunning := false }).2 :=
  RpcIn_start_stop_wellformed { inStartOk := true, outStartOk := false }
    { inStarted := false, outStarted := false,
      inRunning := false, outRunning := false } rfl rfl

/-- C3 counterexample: a failing first attempt whose reply carries the
"RpcOut: " prefix but is only 9 bytes long (`replyLen` not greater than
`sizeof "RpcOut: "` = 9) triggers no restart and no resend: the data goes
out once and the failure is surfaced directly. -/
theorem RpcInSend_short_signature_no_retry :
    (("RpcOut: ".toList).isPrefixOf ("RpcOut: x".toList) = true) ∧
    (RpcInSend
        { first := { ok := false, reply := some ("RpcOut: x".toList) },
          restartOk := true, second := { ok := true, reply := some [] } }
        { inStarted := true, outStarted := true,
          inRunning := true, outRunning := true }
        ['a']).restartCalls = 0 ∧
    (RpcInSend
        { first := { ok := false, reply := some ("RpcOut: x".toList) },
          restartOk := true, second := { ok := true, reply := some [] } }
        { inStarted := true, outStarted := true,
          inRunning := true, outRunning := true }
        ['a']).sendsIssued = [['a']] ∧
    (RpcInSend
        { first := { ok := false, reply := some ("RpcOut: x".toList) },
          restartOk := true, second := { ok := true, reply := some [] } }
        { inStarted := true, outStarted := true,
          inRunning := true, outRunning := true }
        ['a']).ret = false := by
  decide

/-- C3 (amended): when a send on a started out channel fails with a reply
matching the full desync signature (prefix "RpcOut: " AND length strictly
greater than 9), the out channel is stopped once and a restart is attempted
exactly once; if the restart succeeds the identical data is resent exactly
once and the caller observes the second attempt's result (success if it
succeeds); if the restart fails no resend occurs and failure is surfaced;
and (for every input whatsoever) at most one retry is ever performed. -/
theorem RpcInSend_desync_retry_contract (e : SendEnv) (c : BackdoorChannel)
    (data : List Char) (hOut : c.outStarted = true)
    (hFail : e.first.ok = false) (hSig : isDesyncReply e.first.reply = true) :
    ((RpcInSend e c data).stopCalls = 1 ∧
     (RpcInSend e c data).restartCalls = 1) ∧
    (e.restartOk = true →
      (RpcInSend e c data).sendsIssued = [data, data] ∧
      (RpcInSend e c data).ret = e.second.ok ∧
      (RpcInSend e c data).result = e.second.reply) ∧
    (e.restartOk = false →
      (RpcInSend e c data).sendsIssued = [data] ∧
      (RpcInSend e c data).ret = false) ∧
    (∀ (e' : SendEnv) (c' : BackdoorChannel) (d' : List Char),
      (RpcInSend e' c' d').sendsIssued.length ≤ 2) := by
  refine ⟨?_, ?_, ?_, ?_⟩
  · unfold RpcInSend
    simp [hOut, hFail, hSig]
    split <;> simp
  · intro hR
    unfold RpcInSend
    simp [hOut, hFail, hSig, hR]
  · intro hR
    unfold RpcInSend
    simp [hOut, hFail, hSig, hR]
  · intro e' c' d'
    unfold RpcInSend
    repeat' split
    all_goals try simp
    all_goals split <;> simp

/-- Witness for the amended C3 theorem: a 10-byte "RpcOut: xy" failure
reply followed by a successful restart and resend. -/
theorem RpcInSend_desync_retry_contract_witness :
    (((RpcInSend
        { first := { ok := false, reply := some ("RpcOut: xy".toList) },
          restartOk := true, second := { ok := true, reply := some ['k'] } }
        { inStarted := true, outStarted := true,
          inRunning := true, outRunning := true }
        ['a', 'b']).stopCalls = 1 ∧
      (RpcInSend
        { first := { ok := false, reply := some ("RpcOut: xy".toList) },
          restartOk := true, second := { ok := true, reply := some ['k'] } }
        { inStarted := true, outStarted := true,
          inRunning := true, outRunning := true }
        ['a', 'b']).restartCalls = 1) ∧
     (true = true →
       (RpcInSend
        { first := { ok := false, reply := some ("RpcOut: xy".toList) },
          restartOk := true, second := { ok := true, reply := some ['k'] } }
        { inStarted := true, outStarted := true,
          inRunning := true, outRunning := true }
        ['a', 'b']).sendsIssued = [['a', 'b'], ['a', 'b']] ∧
       (RpcInSend
        { first := { ok := false, reply := some ("RpcOut: xy".toList) },
          restartOk := true, second := { ok := true, reply := some ['k'] } }
        { inStarted := true, outStarted := true,
          inRunning := true, outRunning := true }
        ['a', 'b']).ret = true ∧
       (RpcInSend
        { first := { ok := false, reply := some ("RpcOut: xy".toList) },
          restartOk := true, second := { ok := true, reply := some ['k'] } }
        { inStarted := true, outStarted := true,
          inRunning := true, outRunning := true }
        ['a', 'b']).result = some ['k']) ∧
     (false = true →
       (RpcInSend
        { first := { ok := false, reply := some ("RpcOut: xy".toList) },
          restartOk := true, second := { ok := true, reply := some ['k'] } }
        { inStarted := true, outStarted := true,
          inRunning := true, outRunning := true }
        ['a', 'b']).sendsIssued = [['a', 'b']] ∧
       (RpcInSend
        { first := { ok := false, reply := some ("RpcOut: xy".toList) },
          restartOk := true, second := { ok := true, reply := some ['k'] } }
        { inStarted := true, outStarted := true,
          inRunning := true, outRunning := true }
        ['a', 'b']).ret = false) ∧
     (∀ (e' : SendEnv) (c' : BackdoorChannel) (d' : List Char),
       (RpcInSend e' c' d').sendsIssued.length ≤ 2)) := by
  simpa using RpcInSend_desync_retry_contract
    { first := { ok := false, reply := some ("RpcOut: xy".toList) },
      restartOk := true, second := { ok := true, reply := some ['k'] } }
    { inStarted := true, outStarted := true,
      inRunning := true, outRunning := true }
    ['a', 'b'] rfl rfl (by decide)

/-- C8: when a SEARCH_READ reply (delivered in full, with success status)
carries a zero-length file name, `HgfsGetNextDirEntry` sets the done flag
and returns success, and the readdir loop arriving at that offset stops
with the end-of-file flag set, issues no request beyond that offset, and
leaves the entries already copied to the caller's buffer unchanged. -/
theorem Hgfs_readdir_end_of_search (env : ReaddirEnv) (k fuel : Nat)
    (st : ReaddirState)
    (hsub : (env.oracle k).submitErr = 0) (hst : (env.oracle k).status = 0)
    (hpay : searchReadRepSize ≤ (env.oracle k).payloadSize)
    (hlen : (env.oracle k).nameLen = 0) :
    HgfsGetNextDirEntry (env.oracle k) direntNameSize =
      { ret := 0, done := true, nameOut := none, released := 1 } ∧
    HgfsReaddirLoop env (fuel + 1) k st =
      some { ret := 0, eof := true,
             finalState := { st with issued := st.issued ++ [k] } } := by
  have hentry : HgfsGetNextDirEntry (env.oracle k) direntNameSize =
      { ret := 0, done := true, nameOut := none, released := 1 } := by
    unfold HgfsGetNextDirEntry
    rw [if_neg (by simp [hsub]), if_neg (by simp [hst]),
        if_neg (Nat.not_lt.mpr hpay), if_pos hlen]
  refine ⟨hentry, ?_⟩
  simp only [HgfsReaddirLoop]
  rw [hentry]
  simp [EOVERFLOW]

/-- Witness for the C8 theorem: a directory whose entry at offset 2 is the
zero-length end marker. -/
theorem Hgfs_readdir_end_of_search_witness :
    (HgfsGetNextDirEntry
      (ReaddirEnv.oracle
        { oracle := fun _ =>
            { submitErr := 0, status := 0, payloadSize := 200, nameLen := 0,
              name := [], ftype := 0 },
          decode := fun n => some n, makeFull := fun _ => true,
          uioFail := fun _ => false } 2) direntNameSize =
      { ret := 0, done := true, nameOut := none, released := 1 }) ∧
    HgfsReaddirLoop
      { oracle := fun _ =>
          { submitErr := 0, status := 0, payloadSize := 200, nameLen := 0,
            name := [], ftype := 0 },
        decode := fun n => some n, makeFull := fun _ => true,
        uioFail := fun _ => false } (5 + 1) 2
      { resid := 1000, entries := [([65], 1)], issued := [0, 1] } =
      some { ret := 0, eof := true,
             finalState := { resid := 1000, entries := [([65], 1)],
                             issued := [0, 1] ++ [2] } } :=
  Hgfs_readdir_end_of_search
    { oracle := fun _ =>
        { submitErr := 0, status := 0, payloadSize := 200, nameLen := 0,
          name := [], ftype := 0 },
      decode := fun n => some n, makeFull := fun _ => true,
      uioFail := fun _ => false } 2 5
    { resid := 1000, entries := [([65], 1)], issued := [0, 1] }
    rfl rfl (by decide) rfl

/-- C10: a directory entry whose wire name is too long for the caller's
name buffer (the `EOVERFLOW` case of `HgfsGetNextDirEntry`), or whose name
fails wire-format decoding, is silently skipped: the readdir loop carries
on at the next offset with the same error status, the same delivered
entries and the same remaining buffer space, rather than failing the
enumeration or delivering a truncated name. -/
theorem Hgfs_readdir_skips_bad_entries (env : ReaddirEnv) (k fuel : Nat)
    (st : ReaddirState)
    (hsub : (env.oracle k).submitErr = 0) (hst : (env.oracle k).status = 0)
    (hpay : searchReadRepSize ≤ (env.oracle k).payloadSize)
    (hlen : (env.oracle k).nameLen ≠ 0)
    (hbad : (direntNameSize ≤ (env.oracle k).nameLen ∨
             HGFS_PAYLOAD_MAX searchReadRepSize < (env.oracle k).nameLen) ∨
            ((env.oracle k).nameLen < direntNameSize ∧
             (env.oracle k).nameLen ≤ HGFS_PAYLOAD_MAX searchReadRepSize ∧
             env.decode ((env.oracle k).name.take (env.oracle k).nameLen) =
               none)) :
    HgfsReaddirLoop env (fuel + 1) k st =
      HgfsReaddirLoop env fuel (k + 1)
        { st with issued := st.issued ++ [k] } := by
  rcases hbad with hover | ⟨hfit, hmax, hdec⟩
  · have hentry : HgfsGetNextDirEntry (env.oracle k) direntNameSize =
        { ret := EOVERFLOW, done := false, nameOut := none, released := 1 } := by
      unfold HgfsGetNextDirEntry
      rw [if_neg (by simp [hsub]), if_neg (by simp [hst]),
          if_neg (Nat.not_lt.mpr hpay), if_neg hlen, if_pos hover]
    simp only [HgfsReaddirLoop]
    rw [hentry]
    simp
  · have hentry : HgfsGetNextDirEntry (env.oracle k) direntNameSize =
        { ret := 0, done := false,
          nameOut := some ((env.oracle k).name.take (env.oracle k).nameLen,
                           (env.oracle k).ftype),
          released := 1 } := by
      unfold HgfsGetNextDirEntry
      rw [if_neg (by simp [hsub]), if_neg (by simp [hst]),
          if_neg (Nat.not_lt.mpr hpay), if_neg hlen,
          if_neg (not_or.mpr ⟨Nat.not_le.mpr hfit, Nat.not_lt.mpr hmax⟩)]
    simp only [HgfsReaddirLoop]
    rw [hentry]
    simp [EOVERFLOW, hdec]

/-- Witness for the C10 theorem: at offset 3 the server returns a 300-byte
name, longer than the 256-byte `d_name` buffer. -/
theorem Hgfs_readdir_skips_bad_entries_witness :
    HgfsReaddirLoop
      { oracle := fun _ =>
          { submitErr := 0, status := 0, payloadSize := 200, nameLen := 300,
            name := List.replicate 300 66, ftype := 0 },
        decode := fun n => some n, makeFull := fun _ => true,
        uioFail := fun _ => false } (4 + 1) 3
      { resid := 500, entries := [], issued := [] } =
      HgfsReaddirLoop
        { oracle := fun _ =>
            { submitErr := 0, status := 0, payloadSize := 200, nameLen := 300,
              name := List.replicate 300 66, ftype := 0 },
          decode := fun n => some n, makeFull := fun _ => true,
          uioFail := fun _ => false } 4 (3 + 1)
        { resid := 500, entries := [], issued := [] ++ [3] } :=
  Hgfs_readdir_skips_bad_entries
    { oracle := fun _ =>
        { submitErr := 0, status := 0, payloadSize := 200, nameLen := 300,
          name := List.replicate 300 66, ftype := 0 },
      decode := fun n => some n, makeFull := fun _ => true,
      uioFail := fun _ => false } 3 4
    { resid := 500, entries := [], issued := [] }
    rfl rfl (by decide) (by decide) (Or.inl (Or.inl (by decide)))

/-- Whether a host reply is a send failure. -/
def HostReply.isFail : HostReply → Bool
  | .ok _ _ _ => false
  | .fail _ _ => true

lemma negotiateLoop_succ (host : Nat → HostReply) (fuel i : Nat)
    (st : NegState) :
    negotiateLoop host (fuel + 1) i st =
      match negotiateStep st (host i) with
      | .done ret accepted st' => some (ret, accepted, st')
      | .again st' => negotiateLoop host fuel (i + 1) st' := rfl

lemma negotiateStep_sid0_fail2 (st : NegState) (hv : st.hostVersion = 2)
    (u : Bool) (fb : Option Nat) :
    negotiateStep st (.fail u fb) = .done .unsupportedVersion none st := by
  simp [negotiateStep, hv]

lemma negotiateStep_sid0_ok (st : NegState) (hs : st.sessionId = 0)
    (v rsid len : Nat) :
    negotiateStep st (.ok v rsid len) =
      .done .success (some (.ok v rsid len)) st := by
  simp [negotiateStep, hs]

lemma negotiateLoop_v2_sid0_isSome (host : Nat → HostReply) (n i : Nat) :
    (negotiateLoop host (n + 1) i { hostVersion := 2, sessionId := 0 }).isSome
      = true := by
  rw [negotiateLoop_succ]
  cases h : host i with
  | ok v rsid len => rw [negotiateStep_sid0_ok _ rfl]; rfl
  | fail u fb => rw [negotiateStep_sid0_fail2 _ rfl]; rfl

lemma negotiateLoop_v3_sid0_isSome (host : Nat → HostReply) (n i : Nat) :
    (negotiateLoop host (n + 2) i { hostVersion := 3, sessionId := 0 }).isSome
      = true := by
  rw [negotiateLoop_succ]
  cases h : host i with
  | ok v rsid len => rw [negotiateStep_sid0_ok _ rfl]; rfl
  | fail u fb =>
    cases u with
    | true =>
      have hstep : negotiateStep { hostVersion := 3, sessionId := 0 }
          (HostReply.fail true fb) = .done .unsupportedVersion none
            { hostVersion := 3, sessionId := 0 } := by
        simp [negotiateStep]
      rw [hstep]; rfl
    | false =>
      have hstep : negotiateStep { hostVersion := 3, sessionId := 0 }
          (HostReply.fail false fb) = .again { hostVersion := 2, sessionId := 0 } := by
        simp [negotiateStep]
      rw [hstep]
      exact negotiateLoop_v2_sid0_isSome host n (i + 1)

lemma negotiateLoop_three_isSome (host : Nat → HostReply) (i : Nat)
    (st : NegState) (hv : st.hostVersion = 2 ∨ st.hostVersion = 3) :
    (negotiateLoop host 3 i st).isSome = true := by
  rw [show (3 : Nat) = 2 + 1 from rfl, negotiateLoop_succ]
  cases h : host i with
  | ok v rsid len =>
    by_cases hm : st.sessionId ≠ 0 ∧ st.sessionId ≠ rsid
    · have hstep : negotiateStep st (HostReply.ok v rsid len) =
          .again { hostVersion := 3, sessionId := 0 } := by
        simp [negotiateStep, hm, VMGUESTLIB_DATA_VERSION]
      rw [hstep]
      exact negotiateLoop_v3_sid0_isSome host 0 (i + 1)
    · have hstep : negotiateStep st (HostReply.ok v rsid len) =
          .done .success (some (.ok v rsid len)) st := by
        simp only [negotiateStep, if_neg hm]
      rw [hstep]; rfl
  | fail u fb =>
    rcases hv with hv | hv
    · rw [negotiateStep_sid0_fail2 st hv u fb]; rfl
    · cases u with
      | true =>
        have hstep : negotiateStep st (HostReply.fail true fb) =
            .done .unsupportedVersion none st := by
          simp [negotiateStep]
        rw [hstep]; rfl
      | false =>
        have hstep : negotiateStep st (HostReply.fail false fb) =
            .again { hostVersion := 2, sessionId := 0 } := by
          simp [negotiateStep, hv]
        rw [hstep]
        exact negotiateLoop_v2_sid0_isSome host 1 (i + 1)

lemma negotiateLoop_allFail (host : Nat → HostReply) (i : Nat)
    (st : NegState) (hv : st.hostVersion = 2 ∨ st.hostVersion = 3)
    (hf : ∀ j, (host j).isFail = true) :
    ∃ st', negotiateLoop host 3 i st =
      some (.unsupportedVersion, none, st') := by
  have hfi := hf i
  have hfi1 := hf (i + 1)
  rw [show (3 : Nat) = 2 + 1 from rfl, negotiateLoop_succ]
  cases h : host i with
  | ok v rsid len => rw [h] at hfi; simp [HostReply.isFail] at hfi
  | fail u fb =>
    rcases hv with hv | hv
    · exact ⟨st, by rw [negotiateStep_sid0_fail2 st hv u fb]⟩
    · cases u with
      | true =>
        refine ⟨st, ?_⟩
        have hstep : negotiateStep st (HostReply.fail true fb) =
            .done .unsupportedVersion none st := by
          simp [negotiateStep]
        rw [hstep]
      | false =>
        have hstep : negotiateStep st (HostReply.fail false fb) =
            .again { hostVersion := 2, sessionId := 0 } := by
          simp [negotiateStep, hv]
        rw [hstep]
        cases h1 : host (i + 1) with
        | ok v1 rsid1 len1 => rw [h1] at hfi1; simp [HostReply.isFail] at hfi1
        | fail u1 fb1 =>
          refine ⟨{ hostVersion := 2, sessionId := 0 }, ?_⟩
          show negotiateLoop host (1 + 1) (i + 1)
              { hostVersion := 2, sessionId := 0 } = _
          rw [negotiateLoop_succ, h1, negotiateStep_sid0_fail2 _ rfl]

/-! ## C7: chunked read against a consistent server -/

/-- Modelled from the spec: the hypothetical single unchunked read of
`[O, O+L)` from a file, against which the chunked loop's delivered bytes
are compared. -/
def unchunkedRead (file : Nat → Nat) (O L : Nat) : List Nat :=
  (List.range L).map (fun i => file (O + i))

/-- A well-behaved server over a fixed file: every request at offset `o`
for `s` bytes is answered successfully with some count `cnt o s` of bytes
taken from the file starting at `o`. -/
def consistentServer (file : Nat → Nat) (cnt : Nat → Nat → Nat) :
    Nat → Nat → ReadEnv :=
  fun o s =>
    { allocOk := true, submitErr := 0, status := 0, actualSize := cnt o s,
      payload := (List.range (cnt o s)).map (fun i => file (o + i)),
      uioFail := false }

lemma unchunkedRead_split (file : Nat → Nat) (O c L : Nat) (h : c ≤ L) :
    unchunkedRead file O L =
      unchunkedRead file O c ++ unchunkedRead file (O + c) (L - c) := by
  obtain ⟨d, rfl⟩ : ∃ d, L = c + d := ⟨L - c, (Nat.add_sub_cancel' h).symm⟩
  unfold unchunkedRead
  rw [Nat.add_sub_cancel_left, List.range_add, List.map_append, List.map_map]
  congr 1
  apply List.map_congr_left
  intro i _
  simp [Function.comp, Nat.add_assoc]

lemma HgfsDoRead_consistent (file : Nat → Nat) (cnt : Nat → Nat → Nat)
    (o s : Nat) (uio : Uio) (hc0 : 0 < cnt o s) (hcle : cnt o s ≤ s) :
    HgfsDoRead (consistentServer file cnt o s) s uio =
      { ret := (cnt o s : Int),
        uio := { resid := uio.resid - cnt o s,
                 data := uio.data ++ unchunkedRead file o (cnt o s) },
        allocated := true, submitAttempted := true, submitFailed := false,
        released := 1 } := by
  have hlen : ((List.range (cnt o s)).map (fun i => file (o + i))).length =
      cnt o s := by simp
  unfold HgfsDoRead consistentServer
  rw [if_neg (by simp), if_neg (by simp), if_neg (by simp), if_pos hcle,
      if_neg (Nat.pos_iff_ne_zero.mp hc0), if_neg (by simp),
      List.take_of_length_le (le_of_eq hlen)]
  rfl

lemma HgfsDoRead_consistent_zero (file : Nat → Nat) (cnt : Nat → Nat → Nat)
    (o : Nat) (uio : Uio) (hz : cnt o 0 = 0) :
    HgfsDoRead (consistentServer file cnt o 0) 0 uio =
      { ret := 0, uio := uio, allocated := true, submitAttempted := true,
        submitFailed := false, released := 1 } := by
  unfold HgfsDoRead consistentServer
  rw [if_neg (by simp), if_neg (by simp), if_neg (by simp),
      if_pos (by rw [hz]), if_pos hz]

lemma HgfsReadIntLoop_succ (srv : Nat → Nat → ReadEnv) (fuel offset : Nat)
    (uio : Uio) :
    HgfsReadIntLoop srv (fuel + 1) offset uio =
      (if (HgfsDoRead (srv offset (min uio.resid HGFS_IO_MAX))
            (min uio.resid HGFS_IO_MAX) uio).ret = 0 then
        some { ret := 0,
               uio := (HgfsDoRead (srv offset (min uio.resid HGFS_IO_MAX))
                 (min uio.resid HGFS_IO_MAX) uio).uio,
               reqSizes := [min uio.resid HGFS_IO_MAX] }
      else if (HgfsDoRead (srv offset (min uio.resid HGFS_IO_MAX))
            (min uio.resid HGFS_IO_MAX) uio).ret < 0 then
        some { ret := (-(HgfsDoRead (srv offset (min uio.resid HGFS_IO_MAX))
                 (min uio.resid HGFS_IO_MAX) uio).ret).toNat,
               uio := (HgfsDoRead (srv offset (min uio.resid HGFS_IO_MAX))
                 (min uio.resid HGFS_IO_MAX) uio).uio,
               reqSizes := [min uio.resid HGFS_IO_MAX] }
      else if (HgfsDoRead (srv offset (min uio.resid HGFS_IO_MAX))
            (min uio.resid HGFS_IO_MAX) uio).uio.resid = 0 then
        some { ret := 0,
               uio := (HgfsDoRead (srv offset (min uio.resid HGFS_IO_MAX))
                 (min uio.resid HGFS_IO_MAX) uio).uio,
               reqSizes := [min uio.resid HGFS_IO_MAX] }
      else
        (HgfsReadIntLoop srv fuel
          (offset + (HgfsDoRead (srv offset (min uio.resid HGFS_IO_MAX))
            (min uio.resid HGFS_IO_MAX) uio).ret.toNat)
          (HgfsDoRead (srv offset (min uio.resid HGFS_IO_MAX))
            (min uio.resid HGFS_IO_MAX) uio).uio).map
          (fun r => { r with
            reqSizes := min uio.resid HGFS_IO_MAX :: r.reqSizes })) := rfl

lemma readLoop_consistent (file : Nat → Nat) (cnt : Nat → Nat → Nat)
    (hcnt : ∀ o s, 0 < s → 0 < cnt o s ∧ cnt o s ≤ s)
    (hz : ∀ o, cnt o 0 = 0) :
    ∀ fuel L offset acc, L < fuel →
      ∃ r, HgfsReadIntLoop (consistentServer file cnt) fuel offset
            { resid := L, data := acc } = some r ∧
        r.ret = 0 ∧ r.uio.resid = 0 ∧
        r.uio.data = acc ++ unchunkedRead file offset L ∧
        ∀ s ∈ r.reqSizes, s ≤ HGFS_IO_MAX := by
  intro fuel
  induction fuel with
  | zero => intro L offset acc h; omega
  | succ n ih =>
    intro L offset acc hL
    rcases Nat.eq_zero_or_pos L with hL0 | hLpos
    · subst hL0
      rw [HgfsReadIntLoop_succ]
      have hmin : min (Uio.mk 0 acc).resid HGFS_IO_MAX = 0 := by simp
      rw [hmin, HgfsDoRead_consistent_zero file cnt offset _ (hz offset)]
      refine ⟨_, by rw [if_pos rfl], rfl, rfl, by simp [unchunkedRead], ?_⟩
      intro s hs
      simp at hs
      simp [hs]
    · have hsize : 0 < min L HGFS_IO_MAX :=
        lt_min hLpos (by norm_num [HGFS_IO_MAX])
      obtain ⟨hc0, hcle⟩ := hcnt offset (min L HGFS_IO_MAX) hsize
      have hcL : cnt offset (min L HGFS_IO_MAX) ≤ L :=
        le_trans hcle (min_le_left _ _)
      rw [HgfsReadIntLoop_succ]
      have hmin : min (Uio.mk L acc).resid HGFS_IO_MAX = min L HGFS_IO_MAX :=
        rfl
      rw [hmin, HgfsDoRead_consistent file cnt offset _ _ hc0 hcle]
      dsimp only
      rw [if_neg (by exact_mod_cast Nat.pos_iff_ne_zero.mp hc0),
          if_neg (by simp), Int.toNat_natCast]
      rcases Nat.eq_zero_or_pos (L - cnt offset (min L HGFS_IO_MAX))
        with hrem | hrem
      · have hcEq : cnt offset (min L HGFS_IO_MAX) = L := by omega
        rw [if_pos hrem]
        refine ⟨_, rfl, rfl, ?_, ?_, ?_⟩
        · exact hrem
        · simp [hcEq]
        · intro s hs
          simp at hs
          simp [hs, min_le_right]
      · rw [if_neg (Nat.pos_iff_ne_zero.mp hrem)]
        obtain ⟨r, hr, hret, hresid, hdata, hsizes⟩ :=
          ih (L - cnt offset (min L HGFS_IO_MAX))
            (offset + cnt offset (min L HGFS_IO_MAX))
            (acc ++ unchunkedRead file offset (cnt offset (min L HGFS_IO_MAX)))
            (by omega)
        refine ⟨{ r with
            reqSizes := min L HGFS_IO_MAX :: r.reqSizes }, ?_, hret, hresid,
            ?_, ?_⟩
        · rw [hr]
          rfl
        · show r.uio.data = acc ++ unchunkedRead file offset L
          rw [hdata, List.append_assoc]
          rw [← unchunkedRead_split file offset _ L hcL]
        · intro s hs
          rcases List.mem_cons.mp hs with hs | hs
          · simp [hs, min_le_right]
          · exact hsizes s hs

/-- C7: against any consistent server over a file (every chunk request at
offset `o` for `s > 0` bytes returns between 1 and `s` bytes of the file
starting at `o`), the chunked read loop of `HgfsReadInt` for `L` bytes at
offset `O` completes successfully, delivers exactly the bytes of the single
hypothetical unchunked read of `[O, O+L)`, and never issues a request
larger than `HGFS_IO_MAX`. -/
theorem HgfsReadInt_chunked_equals_unchunked (file : Nat → Nat)
    (cnt : Nat → Nat → Nat)
    (hcnt : ∀ o s, 0 < s → 0 < cnt o s ∧ cnt o s ≤ s)
    (hz : ∀ o, cnt o 0 = 0) (O L : Nat) :
    ∃ r, HgfsReadInt false true (consistentServer file cnt) O
          { resid := L, data := [] } = some r ∧
      r.ret = 0 ∧ r.uio.resid = 0 ∧
      r.uio.data = unchunkedRead file O L ∧
      ∀ s ∈ r.reqSizes, s ≤ HGFS_IO_MAX := by
  obtain ⟨r, hr, hret, hresid, hdata, hsizes⟩ :=
    readLoop_consistent file cnt hcnt hz (L + 1) L O [] (Nat.lt_succ_self L)
  refine ⟨r, ?_, hret, hresid, ?_, hsizes⟩
  · unfold HgfsReadInt
    rw [if_neg (by simp), if_neg (by simp)]
    exact hr
  · rw [hdata]
    rfl

/-- Witness for the C7 theorem: a 10-byte read at offset 100 against a
server that answers at most 3 bytes per chunk. -/
theorem HgfsReadInt_chunked_equals_unchunked_witness :
    ∃ r, HgfsReadInt false true
          (consistentServer (fun n => n % 251) (fun _ s => min s 3)) 100
          { resid := 10, data := [] } = some r ∧
      r.ret = 0 ∧ r.uio.resid = 0 ∧
      r.uio.data = unchunkedRead (fun n => n % 251) 100 10 ∧
      ∀ s ∈ r.reqSizes, s ≤ HGFS_IO_MAX :=
  HgfsReadInt_chunked_equals_unchunked (fun n => n % 251) (fun _ s => min s 3)
    (fun o s hs => ⟨lt_min hs (by norm_num), min_le_left _ _⟩)
    (fun o => rfl) 100 10

lemma updateInfo_isSome_of_loop (fuel : Nat) (host : Nat → HostReply)
    (xdr : XdrEnv) (h : GuestLibHandle)
    (hl : (negotiateLoop host fuel 0
        { hostVersion := if h.version = 0 then VMGUESTLIB_DATA_VERSION
                         else h.version,
          sessionId := h.sessionId }).isSome = true) :
    (VMGuestLibUpdateInfo fuel host xdr h).isSome = true := by
  obtain ⟨x, hx⟩ := Option.isSome_iff_exists.mp hl
  unfold VMGuestLibUpdateInfo
  dsimp only
  rw [hx]
  rcases x with ⟨ret, acc, st⟩
  repeat' split
  all_goals simp_all

/-- C2: starting from any reachable handle state (stored version 0, 2 or
3), the version-negotiation loop of `VMGuestLibUpdateInfo` terminates
within 3 iterations for every sequence of host replies; and when the host
fails every request (reporting any mixture of fallback versions,
"Unknown command" or garbage), it fails cleanly with
`VMGUESTLIB_ERROR_UNSUPPORTED_VERSION` instead of iterating forever. -/
theorem VMGuestLibUpdateInfo_negotiation_terminates (host : Nat → HostReply)
    (xdr : XdrEnv) (h : GuestLibHandle)
    (hver : h.version = 0 ∨ h.version = 2 ∨ h.version = 3) :
    (VMGuestLibUpdateInfo 3 host xdr h).isSome = true ∧
    ((∀ j, (host j).isFail = true) →
      ∃ out, VMGuestLibUpdateInfo 3 host xdr h = some out ∧
        out.ret = VMGuestLibError.unsupportedVersion) := by
  have hv0 : ((if h.version = 0 then VMGUESTLIB_DATA_VERSION
               else h.version) : Nat) = 2 ∨
      ((if h.version = 0 then VMGUESTLIB_DATA_VERSION
        else h.version) : Nat) = 3 := by
    rcases hver with h0 | h0 | h0 <;> simp [h0, VMGUESTLIB_DATA_VERSION]
  constructor
  · exact updateInfo_isSome_of_loop 3 host xdr h
      (negotiateLoop_three_isSome host 0 _ hv0)
  · intro hf
    obtain ⟨st', hst'⟩ := negotiateLoop_allFail host 0
      { hostVersion := if h.version = 0 then VMGUESTLIB_DATA_VERSION
                       else h.version,
        sessionId := h.sessionId } hv0 hf
    refine ⟨{ ret := .unsupportedVersion,
              handle := { h with sessionId := st'.sessionId } }, ?_, rfl⟩
    unfold VMGuestLibUpdateInfo
    dsimp only
    rw [hst']
    rfl

/-- Witness for the C2 theorem: a fresh handle against a host that always
fails parsing to some fallback. -/
theorem VMGuestLibUpdateInfo_negotiation_terminates_witness :
    (VMGuestLibUpdateInfo 3 (fun _ => .fail false (some 9))
        { countOk := true, statsOk := true }
        { version := 0, sessionId := 0 }).isSome = true ∧
    ((∀ j, ((fun (_ : Nat) => HostReply.fail false (some 9)) j).isFail
        = true) →
      ∃ out, VMGuestLibUpdateInfo 3 (fun _ => .fail false (some 9))
          { countOk := true, statsOk := true }
          { version := 0, sessionId := 0 } = some out ∧
        out.ret = VMGuestLibError.unsupportedVersion) :=
  VMGuestLibUpdateInfo_negotiation_terminates (fun _ => .fail false (some 9))
    { countOk := true, statsOk := true } { version := 0, sessionId := 0 }
    (Or.inl rfl)

/-- C5: against a host that rejects version 3 (with a reply that is not
"Unknown command") and then answers version 2 with a well-formed V2 reply
carrying session `rsid`, a fresh client requests version 3, falls back,
retries at version 2, succeeds, records version 2 and session `rsid` in the
handle — and every subsequent statistic accessor on that handle dispatches
to the V2 struct layout. -/
theorem VMGuestLibUpdateInfo_v3_to_v2_fallback (rsid : Nat) (hs : rsid ≠ 0)
    (fb : Option Nat) (xdr : XdrEnv) :
    VMGuestLibUpdateInfo 3
        (fun i => if i = 0 then .fail false fb else .ok 2 rsid sizeofV2Data)
        xdr { version := 0, sessionId := 0 } =
      some { ret := .success, handle := { version := 2, sessionId := rsid } } ∧
    VMGUESTLIB_GETFN_BODY { version := 2, sessionId := rsid } =
      GetPath.v2Layout := by
  constructor
  · have hstep0 : negotiateStep
        { hostVersion := VMGUESTLIB_DATA_VERSION, sessionId := 0 }
        (HostReply.fail false fb) =
          .again { hostVersion := 2, sessionId := 0 } := by
      simp [negotiateStep, VMGUESTLIB_DATA_VERSION]
    have h0 : (if (0 : Nat) = 0 then HostReply.fail false fb
        else HostReply.ok 2 rsid sizeofV2Data) = HostReply.fail false fb :=
      if_pos rfl
    have h1 : (if (0 + 1 : Nat) = 0 then HostReply.fail false fb
        else HostReply.ok 2 rsid sizeofV2Data) =
          HostReply.ok 2 rsid sizeofV2Data :=
      if_neg (by decide)
    have hloop : negotiateLoop
        (fun i => if i = 0 then .fail false fb else .ok 2 rsid sizeofV2Data)
        3 0 { hostVersion := VMGUESTLIB_DATA_VERSION, sessionId := 0 } =
        some (.success, some (.ok 2 rsid sizeofV2Data),
              { hostVersion := 2, sessionId := 0 }) := by
      show negotiateLoop
        (fun i => if i = 0 then .fail false fb else .ok 2 rsid sizeofV2Data)
        (2 + 1) 0 { hostVersion := VMGUESTLIB_DATA_VERSION, sessionId := 0 } = _
      rw [negotiateLoop_succ, h0, hstep0]
      show negotiateLoop
        (fun i => if i = 0 then .fail false fb else .ok 2 rsid sizeofV2Data)
        (1 + 1) (0 + 1) { hostVersion := 2, sessionId := 0 } = _
      rw [negotiateLoop_succ, h1, negotiateStep_sid0_ok _ rfl]
    unfold VMGuestLibUpdateInfo
    dsimp only
    rw [if_pos rfl, hloop]
    rfl
  · simp [VMGUESTLIB_GETFN_BODY, hs]

/-- Witness for the C5 theorem at session id 7. -/
theorem VMGuestLibUpdateInfo_v3_to_v2_fallback_witness :
    VMGuestLibUpdateInfo 3
        (fun i => if i = 0 then .fail false (some 2)
                  else .ok 2 7 sizeofV2Data)
        { countOk := true, statsOk := true } { version := 0, sessionId := 0 } =
      some { ret := .success, handle := { version := 2, sessionId := 7 } } ∧
    VMGUESTLIB_GETFN_BODY { version := 2, sessionId := 7 } =
      GetPath.v2Layout :=
  VMGuestLibUpdateInfo_v3_to_v2_fallback 7 (by decide) (some 2)
    { countOk := true, statsOk := true }

end VmTools
